import Mathlib

/-!
Verification of the PubMed baseline bulk file-synchronization engine,
a shallow embedding of `src/download_pubmed_baselines.py` (and its helper
`src/list_pubmed_files.py`).

The worker `verify_and_download_file` is modelled as a pure function of the
per-file remote world (the HTTP responses the server would give for the
`.md5` resource and for the file itself) and of the local file content at
the target path; it returns the status string the script returns together
with the resulting local file content and the byte counts transferred.

The coordinator `download_all_pubmed_baseline_files` is modelled over an
outcome oracle `Nat → String → Status` giving, for each round index and
file name, the status the worker returns in that round; this abstracts the
thread pool, whose only product consumed by the coordinator is exactly that
status per file.  The final `os.listdir` is an explicit parameter.
-/

namespace PubmedSync

/-- Byte content of a file: the list of byte values read or written. -/
abbrev Content := List Nat

/-- Result of an HTTP GET as the script observes it: either a response body
(after `raise_for_status` passed), or an `HTTPError` carrying the status
code (raised by `raise_for_status`), or any other exception (timeout,
connection error, a failure while streaming). -/
inductive Resp (α : Type) where
  | ok : α → Resp α
  | httpError : Nat → Resp α
  | exn : Resp α
deriving DecidableEq

/-- The four status strings `verify_and_download_file` can return
(`'success'`, `'skipped_verified'`, `'failed_404'`, `'failed'`). -/
inductive Status where
  | success
  | skipped_verified
  | failed_404
  | failed
deriving DecidableEq

/-- Which raise site / handler produced a `failed` return.  The script
distinguishes these only in the printed message, but each corresponds to a
distinct program point: the non-404 `HTTPError` handler, an `IndexError`
while parsing the `.md5` body, the `Incomplete download (size mismatch)`
raise, the `MD5 mismatch after download` raise, and every other exception. -/
inductive FailReason where
  | httpError
  | md5ParseError
  | sizeMismatch
  | checksumMismatch
  | transientError
deriving DecidableEq

/-- The remote world for a single file: the response to `GET url + ".md5"`,
the response to `GET url`, the declared `content-length` header when the
file GET returns a response (`none` when the header is absent), and how many
body bytes had been written when a streaming exception interrupted the
download (used only on the `fileResp = exn` path). -/
structure RemoteFile where
  md5Resp : Resp String
  fileResp : Resp Content
  contentLength : Option Nat
  interruptedBytes : Nat
deriving DecidableEq

/-- What one invocation of `verify_and_download_file` produces: the returned
status, the raise site when the status is `failed`, the local file content at
the target path after the call (`none` = no file on disk), and the bytes
transferred over the network for the checksum resource and for the file. -/
structure SyncResult where
  status : Status
  reason : Option FailReason
  fs : Option Content
  md5Bytes : Nat
  fileBytes : Nat
deriving DecidableEq

/-- Structural split of a character list at `'='`, mirroring Python's
`str.split('=')` (which always returns at least one field). -/
def splitOnEq : List Char → List (List Char)
  | [] => [[]]
  | c :: rest =>
      let r := splitOnEq rest
      if c = '=' then [] :: r
      else
        match r with
        | [] => [[c]]
        | f :: fs => (c :: f) :: fs

/-- Python `str.strip()` whitespace test for the characters that occur here. -/
def isSpaceChar (c : Char) : Bool :=
  c = ' ' || c = '\t' || c = '\n' || c = '\r'

/-- Python `str.strip()`: drop leading and trailing whitespace. -/
def stripChars (l : List Char) : List Char :=
  ((l.dropWhile isSpaceChar).reverse.dropWhile isSpaceChar).reverse

/-- Line 53: `official_hash = md5_response.text.split('=')[1].strip()`.
Returns `none` when the body has no `'='` (Python raises `IndexError`,
caught by the generic handler). -/
def parseOfficialHash (body : String) : Option String :=
  match splitOnEq body.data with
  | _ :: v :: _ => some (String.mk (stripChars v))
  | _ => none

/-- Lines 64–92 of `verify_and_download_file`: stream-download the file,
compare `os.path.getsize` against `int(response.headers.get('content-length', 0))`,
verify the MD5 of the fresh file, with the two `except` handlers.  Reached
only with no file at the target path (a stale copy was deleted at line 62).
`md5c` is the MD5 digest function (`calculate_md5` on content), kept
abstract exactly as the script treats `hashlib.md5` as a black box. -/
def downloadPhase (md5c : Content → String) (w : RemoteFile)
    (official : String) (md5Bytes : Nat) : SyncResult :=
  match w.fileResp with
  | Resp.httpError code =>
      if code = 404 then
        { status := Status.failed_404, reason := none, fs := none,
          md5Bytes := md5Bytes, fileBytes := 0 }
      else
        { status := Status.failed, reason := some FailReason.httpError,
          fs := none, md5Bytes := md5Bytes, fileBytes := 0 }
  | Resp.exn =>
      { status := Status.failed, reason := some FailReason.transientError,
        fs := none, md5Bytes := md5Bytes, fileBytes := w.interruptedBytes }
  | Resp.ok body =>
      if body.length ≠ w.contentLength.getD 0 then
        { status := Status.failed, reason := some FailReason.sizeMismatch,
          fs := none, md5Bytes := md5Bytes, fileBytes := body.length }
      else if md5c body = official then
        { status := Status.success, reason := none, fs := some body,
          md5Bytes := md5Bytes, fileBytes := body.length }
      else
        { status := Status.failed, reason := some FailReason.checksumMismatch,
          fs := none, md5Bytes := md5Bytes, fileBytes := body.length }

/-- Lines 37–92: `verify_and_download_file(filename, download_dir, base_url)`
as a function of the remote world `w` and the local content at the target
path.  Fetch the `.md5` resource; on its 404 return `failed_404` keeping the
local file; on another HTTP error or exception the handler deletes any local
file and returns `failed`.  Otherwise parse the official hash, return
`skipped_verified` when a local file matches it, delete a stale local file
and fall through to the download phase. -/
def verify_and_download_file (md5c : Content → String) (w : RemoteFile)
    (localFile : Option Content) : SyncResult :=
  match w.md5Resp with
  | Resp.httpError code =>
      if code = 404 then
        { status := Status.failed_404, reason := none, fs := localFile,
          md5Bytes := 0, fileBytes := 0 }
      else
        { status := Status.failed, reason := some FailReason.httpError,
          fs := none, md5Bytes := 0, fileBytes := 0 }
  | Resp.exn =>
      { status := Status.failed, reason := some FailReason.transientError,
        fs := none, md5Bytes := 0, fileBytes := 0 }
  | Resp.ok body =>
      match parseOfficialHash body with
      | none =>
          { status := Status.failed, reason := some FailReason.md5ParseError,
            fs := none, md5Bytes := body.length, fileBytes := 0 }
      | some official =>
          match localFile with
          | some c =>
              if md5c c = official then
                { status := Status.skipped_verified, reason := none,
                  fs := some c, md5Bytes := body.length, fileBytes := 0 }
              else
                downloadPhase md5c w official body.length
          | none => downloadPhase md5c w official body.length

/-- Total bytes one invocation moved over the network. -/
def networkBytes (r : SyncResult) : Nat :=
  r.md5Bytes + r.fileBytes

/-- The mutable state of one session of
`download_all_pubmed_baseline_files`, between rounds: `files_to_process`
(line 141: the sorted failed files, input of the next round) and
`non_existent_files` (line 116/139).  Two ghost observables are carried so
properties of the run can be stated: `done_files` records every name whose
round outcome was `success` or `skipped_verified` (such a name leaves
`files_to_process` for good, so this is the set of names whose last outcome
was Verified/Downloaded), and `workLog` records each executed round's work
set (printed at line 124).  `roundsCompleted` counts executed rounds (the
loop variable `attempt`). -/
structure SessionState where
  files_to_process : List String
  non_existent_files : List String
  done_files : List String
  workLog : List (List String)
  roundsCompleted : Nat
deriving DecidableEq

/-- Lines 126–141, one round: run the batch over `files_to_process` and
partition the outcomes.  `outcome` gives the status the worker returned for
each name this round.  `failed` names become the next `files_to_process`
(the script collects them in completion order and sorts; filtering the
already-sorted work set yields the same sorted list), `failed_404` names are
added to `non_existent_files`, and `success`/`skipped_verified` names are
dropped (recorded in the ghost `done_files`). -/
def runRound (outcome : String → Status) (s : SessionState) : SessionState :=
  { files_to_process :=
      s.files_to_process.filter (fun n => decide (outcome n = Status.failed)),
    non_existent_files := s.non_existent_files ++
      s.files_to_process.filter (fun n => decide (outcome n = Status.failed_404)),
    done_files := s.done_files ++
      s.files_to_process.filter
        (fun n => decide (outcome n = Status.success ∨
                          outcome n = Status.skipped_verified)),
    workLog := s.workLog ++ [s.files_to_process],
    roundsCompleted := s.roundsCompleted + 1 }

/-- Lines 118–141: `for attempt in range(max_retries)` with the early
`break` when `files_to_process` is empty.  `fuel` is the number of loop
iterations still allowed; the round index passed to the oracle is the
state's `roundsCompleted`, which equals `attempt`. -/
def runRounds (outcome : Nat → String → Status) :
    Nat → SessionState → SessionState
  | 0, s => s
  | fuel + 1, s =>
      if s.files_to_process = [] then s
      else runRounds outcome fuel (runRound (outcome s.roundsCompleted) s)

/-- Python `f"{i:04d}"`: decimal digits left-padded with zeros to width 4. -/
def pad4 (i : Nat) : String :=
  let s := toString i
  if s.length < 4 then String.mk (List.replicate (4 - s.length) '0') ++ s else s

/-- Line 114/146: `f"pubmed{year_prefix}n{i:04d}.xml.gz"`. -/
def baselineFileName (yearTag : String) (i : Nat) : String :=
  "pubmed" ++ yearTag ++ "n" ++ pad4 i ++ ".xml.gz"

/-- Lines 114 and 146: the full inventory
`pubmed{yy}n0001.xml.gz .. pubmed{yy}n{count}.xml.gz`. -/
def inventoryNames (yearTag : String) (n : Nat) : List String :=
  (List.range n).map (fun i => baselineFileName yearTag (i + 1))

/-- Session state before the first round: all inventory names pending,
nothing confirmed absent, nothing done. -/
def initState (inv : List String) : SessionState :=
  { files_to_process := inv, non_existent_files := [], done_files := [],
    workLog := [], roundsCompleted := 0 }

/-- Line 112: `str(year)[-2:]`. -/
def yearTagOf (year : Nat) : String :=
  let s := toString year
  String.mk (s.data.drop (s.data.length - 2))

/-- Lines 146–147: `expected_files = sorted(all_possible_files - non_existent_files)`
(the inventory list is already in sorted order, so set-difference then sort
equals filtering the inventory). -/
def expected_files (inv : List String) (s : SessionState) : List String :=
  inv.filter (fun f => decide (¬ f ∈ s.non_existent_files))

/-- Line 151: `missing_files = [f for f in expected_files if f not in downloaded_files]`,
where `downloaded` is the `os.listdir(download_dir)` result. -/
def missing_files (expected downloaded : List String) : List String :=
  expected.filter (fun f => decide (¬ f ∈ downloaded))

/-- The final report of lines 151–162: names still failing after all rounds
(the residual `files_to_process`) and names missing from the directory. -/
structure ReconciliationReport where
  missing : List String
  stillFailing : List String
deriving DecidableEq

/-- The environment of one run: whether the download path exists and is a
directory (lines 99–104), the result of `count_remote_files(year)` (`none`
models the `None` returned on any FTP/parse error; the script treats `0` the
same way via `if not num_files_to_try`), and the year argument. -/
structure RunConfig where
  dirExists : Bool
  dirIsDir : Bool
  countResult : Option Nat
  year : Nat
deriving DecidableEq

/-- Lines 95–165: `download_all_pubmed_baseline_files`.  `Except.error c`
models `sys.exit(c)`; a run that reaches the final check returns
`Except.ok` with the report, and the function then merely prints it —
there is no `sys.exit` after the retry loop.  `outcome` abstracts the
worker's status per round and name, `listingAfter` abstracts
`os.listdir(download_dir)` at line 149. -/
def download_all_pubmed_baseline_files (cfg : RunConfig)
    (outcome : Nat → String → Status) (listingAfter : List String)
    (max_retries : Nat) : Except Nat ReconciliationReport :=
  if cfg.dirExists ∧ ¬ cfg.dirIsDir then Except.error 1
  else
    match cfg.countResult with
    | none => Except.error 1
    | some 0 => Except.error 1
    | some n =>
        let inv := inventoryNames (yearTagOf cfg.year) n
        let final := runRounds outcome max_retries (initState inv)
        Except.ok
          { missing := missing_files (expected_files inv final) listingAfter,
            stillFailing := final.files_to_process }

/-- Lines 169–200: the process exit code.  `argparse` aside, `__main__` just
calls `download_all_pubmed_baseline_files` and falls off the end, so the
process exits 0 unless one of the two `sys.exit(1)` calls fired. -/
def mainExitCode (cfg : RunConfig) (outcome : Nat → String → Status)
    (listingAfter : List String) (max_retries : Nat) : Nat :=
  match download_all_pubmed_baseline_files cfg outcome listingAfter max_retries with
  | Except.error code => code
  | Except.ok _ => 0

/-- How many executed rounds had `name` in their work set: the number of
attempts the coordinator made on that file. -/
def attemptCount (name : String) (s : SessionState) : Nat :=
  (s.workLog.filter (fun l => decide (name ∈ l))).length

/-- The round-boundary partition invariant: every inventory name is in
exactly one of `files_to_process`, `non_existent_files`, `done_files`, and
their union is exactly the inventory. -/
def sessionPartition (inv : List String) (s : SessionState) : Prop :=
  ∀ name,
    (name ∈ inv ↔
      (name ∈ s.files_to_process ∨ name ∈ s.non_existent_files ∨
       name ∈ s.done_files)) ∧
    ¬(name ∈ s.files_to_process ∧ name ∈ s.non_existent_files) ∧
    ¬(name ∈ s.files_to_process ∧ name ∈ s.done_files) ∧
    ¬(name ∈ s.non_existent_files ∧ name ∈ s.done_files)

/-- A concrete remote world used in concrete runs: the checksum resource
body is `"k=h"` (official hash `"h"`), the file body is the single byte `7`
with declared length 1. -/
def unchangedWorld : RemoteFile :=
  { md5Resp := Resp.ok "k=h", fileResp := Resp.ok [7],
    contentLength := some 1, interruptedBytes := 0 }

/-- A concrete run environment: usable directory, one remote file, year
2025. -/
def cfgDemo : RunConfig :=
  { dirExists := true, dirIsDir := true, countResult := some 1, year := 2025 }

/-! ### Worker lemmas -/

/-- Case split on the download phase: it either fails (generic failure or a
404 on the file itself) leaving no file on disk, or it succeeds leaving the
downloaded body, whose digest equals the official hash, on disk. -/
theorem downloadPhase_fs_spec (md5c : Content → String) (w : RemoteFile)
    (official : String) (mb : Nat) :
    (((downloadPhase md5c w official mb).status = Status.failed ∨
      (downloadPhase md5c w official mb).status = Status.failed_404) ∧
     (downloadPhase md5c w official mb).fs = none) ∨
    ((downloadPhase md5c w official mb).status = Status.success ∧
     ∃ body, (downloadPhase md5c w official mb).fs = some body ∧
       md5c body = official) := by
  obtain ⟨m5, fr, cl, ib⟩ := w
  rcases fr with body | code | _
  · by_cases hlen : body.length ≠ (cl.getD 0)
    · left
      simp [downloadPhase, hlen]
    · by_cases hm : md5c body = official
      · right
        simp only [downloadPhase]
        rw [if_neg hlen, if_pos hm]
        exact ⟨rfl, body, rfl, hm⟩
      · left
        simp only [downloadPhase]
        rw [if_neg hlen, if_neg hm]
        exact ⟨Or.inl rfl, rfl⟩
  · by_cases h4 : code = 404
    · left
      simp [downloadPhase, h4]
    · left
      simp [downloadPhase, h4]
  · left
    simp [downloadPhase]

/-- Master case split for one worker invocation: either it failed (or hit a
404 on the file itself) and left no file, or the checksum resource itself
404ed and the local path is untouched, or it ended `success`/
`skipped_verified` with a file on disk matching the official hash. -/
theorem sync_fs_spec (md5c : Content → String) (w : RemoteFile)
    (localFile : Option Content) :
    (((verify_and_download_file md5c w localFile).status = Status.failed ∨
      (verify_and_download_file md5c w localFile).status = Status.failed_404) ∧
     (verify_and_download_file md5c w localFile).fs = none) ∨
    ((verify_and_download_file md5c w localFile).status = Status.failed_404 ∧
     w.md5Resp = Resp.httpError 404 ∧
     (verify_and_download_file md5c w localFile).fs = localFile) ∨
    (∃ bodyMd5 official c,
      w.md5Resp = Resp.ok bodyMd5 ∧
      parseOfficialHash bodyMd5 = some official ∧
      ((verify_and_download_file md5c w localFile).status = Status.success ∨
       (verify_and_download_file md5c w localFile).status =
         Status.skipped_verified) ∧
      (verify_and_download_file md5c w localFile).fs = some c ∧
      md5c c = official) := by
  rcases hw : w.md5Resp with bodyMd5 | code | _
  · rcases hp : parseOfficialHash bodyMd5 with _ | official
    · left
      simp [verify_and_download_file, hw, hp]
    · have hdl := downloadPhase_fs_spec md5c w official bodyMd5.length
      rcases localFile with _ | c
      · have hred : verify_and_download_file md5c w none =
            downloadPhase md5c w official bodyMd5.length := by
          simp [verify_and_download_file, hw, hp]
        rw [hred]
        rcases hdl with ⟨hs, hfs⟩ | ⟨hs, body, hfs, hm⟩
        · exact Or.inl ⟨hs, hfs⟩
        · exact Or.inr (Or.inr ⟨bodyMd5, official, body, rfl, hp, Or.inl hs, hfs, hm⟩)
      · by_cases hm : md5c c = official
        · have hred : verify_and_download_file md5c w (some c) =
              { status := Status.skipped_verified, reason := none,
                fs := some c, md5Bytes := bodyMd5.length, fileBytes := 0 } := by
            simp [verify_and_download_file, hw, hp, hm]
          rw [hred]
          exact Or.inr (Or.inr ⟨bodyMd5, official, c, rfl, hp, Or.inr rfl, rfl, hm⟩)
        · have hred : verify_and_download_file md5c w (some c) =
              downloadPhase md5c w official bodyMd5.length := by
            simp [verify_and_download_file, hw, hp, hm]
          rw [hred]
          rcases hdl with ⟨hs, hfs⟩ | ⟨hs, body, hfs, hmb⟩
          · exact Or.inl ⟨hs, hfs⟩
          · exact Or.inr (Or.inr ⟨bodyMd5, official, body, rfl, hp, Or.inl hs, hfs, hmb⟩)
  · by_cases h4 : code = 404
    · subst h4
      right; left
      refine ⟨?_, rfl, ?_⟩ <;> simp [verify_and_download_file, hw]
    · left
      simp [verify_and_download_file, hw, h4]
  · left
    simp [verify_and_download_file, hw]

/-! ### Claim theorems -/

/-- C3: when the GET of the `.md5` resource yields HTTP 404, the worker
returns `failed_404` (the NotFound outcome) immediately: the file itself is
never downloaded (zero file bytes transferred, independent of what the file
GET would return), the local path is untouched, and the outcome is not the
generic retryable `failed`. -/
theorem checksum_404_short_circuits (md5c : Content → String) (w : RemoteFile)
    (localFile : Option Content) (h : w.md5Resp = Resp.httpError 404) :
    verify_and_download_file md5c w localFile =
      { status := Status.failed_404, reason := none, fs := localFile,
        md5Bytes := 0, fileBytes := 0 } ∧
    (verify_and_download_file md5c w localFile).status ≠ Status.failed := by
  have hred : verify_and_download_file md5c w localFile =
      { status := Status.failed_404, reason := none, fs := localFile,
        md5Bytes := 0, fileBytes := 0 } := by
    simp [verify_and_download_file, h]
  rw [hred]
  exact ⟨rfl, by simp⟩

/-- Witness for `checksum_404_short_circuits` at a concrete world. -/
theorem checksum_404_short_circuits_witness :
    verify_and_download_file (fun _ => "h")
        { md5Resp := Resp.httpError 404, fileResp := Resp.ok [7],
          contentLength := some 1, interruptedBytes := 0 } (some [1, 2]) =
      { status := Status.failed_404, reason := none, fs := some [1, 2],
        md5Bytes := 0, fileBytes := 0 } :=
  (checksum_404_short_circuits (fun _ => "h")
    { md5Resp := Resp.httpError 404, fileResp := Resp.ok [7],
      contentLength := some 1, interruptedBytes := 0 } (some [1, 2]) rfl).1

/-- C10: every invocation that returns the `failed` status leaves no file at
the target path — both `except` handlers delete any existing file before
returning `'failed'`, including a pre-existing valid file when the checksum
fetch itself fails transiently. -/
theorem failed_outcome_leaves_no_file (md5c : Content → String)
    (w : RemoteFile) (localFile : Option Content)
    (h : (verify_and_download_file md5c w localFile).status = Status.failed) :
    (verify_and_download_file md5c w localFile).fs = none := by
  rcases sync_fs_spec md5c w localFile with
      ⟨_, hfs⟩ | ⟨hs, _, _⟩ | ⟨_, _, _, _, _, hs, _, _⟩
  · exact hfs
  · rw [h] at hs; cases hs
  · rcases hs with hs | hs <;> rw [h] at hs <;> cases hs

/-- Witness for `failed_outcome_leaves_no_file`: the checksum fetch raises a
non-404 error while a file sits at the target path; the call fails and the
file is gone afterwards. -/
theorem failed_outcome_leaves_no_file_witness :
    (verify_and_download_file (fun _ => "h")
        { md5Resp := Resp.exn, fileResp := Resp.ok [7],
          contentLength := some 1, interruptedBytes := 0 }
        (some [7])).status = Status.failed ∧
    (verify_and_download_file (fun _ => "h")
        { md5Resp := Resp.exn, fileResp := Resp.ok [7],
          contentLength := some 1, interruptedBytes := 0 }
        (some [7])).fs = none :=
  ⟨by decide,
   failed_outcome_leaves_no_file (fun _ => "h")
     { md5Resp := Resp.exn, fileResp := Resp.ok [7],
       contentLength := some 1, interruptedBytes := 0 } (some [7]) (by decide)⟩

/-- C6: a stale local file (checksum differs from the official one) is
deleted and the file is re-downloaded; when download and verification
succeed the outcome is `success` (Downloaded) and the file on disk is the
fresh body, whose checksum equals the official checksum. -/
theorem stale_local_file_redownloaded (md5c : Content → String)
    (w : RemoteFile) (c : Content) (bodyMd5 official : String) (body : Content)
    (hmd5 : w.md5Resp = Resp.ok bodyMd5)
    (hparse : parseOfficialHash bodyMd5 = some official)
    (hstale : md5c c ≠ official)
    (hfile : w.fileResp = Resp.ok body)
    (hlen : body.length = w.contentLength.getD 0)
    (hgood : md5c body = official) :
    verify_and_download_file md5c w (some c) =
      { status := Status.success, reason := none, fs := some body,
        md5Bytes := bodyMd5.length, fileBytes := body.length } ∧
    md5c body = official := by
  refine ⟨?_, hgood⟩
  simp [verify_and_download_file, downloadPhase, hmd5, hparse, hstale,
        hfile, hlen, hgood]

/-- Witness for `stale_local_file_redownloaded`: local content `[1]` hashes
to `"x"`, the official hash is `"h"`, and the fresh body `[7]` hashes to
`"h"`. -/
theorem stale_local_file_redownloaded_witness :
    verify_and_download_file (fun b => if b = [7] then "h" else "x")
        unchangedWorld (some [1]) =
      { status := Status.success, reason := none, fs := some [7],
        md5Bytes := 3, fileBytes := 1 } ∧
    (fun b => if b = [7] then "h" else "x") [7] = "h" :=
  stale_local_file_redownloaded (fun b => if b = [7] then "h" else "x")
    unchangedWorld [1] "k=h" "h" [7] rfl (by decide) (by decide) rfl
    (by decide) (by decide)

/-- C7: a freshly downloaded file whose checksum disagrees with the official
one yields `failed` at the checksum-mismatch raise site with the file
deleted; moreover, whenever the official checksum was obtained, no
invocation leaves a file on disk whose checksum disagrees with it. -/
theorem fresh_checksum_mismatch_deleted (md5c : Content → String)
    (w : RemoteFile) (localFile : Option Content) (bodyMd5 official : String)
    (hmd5 : w.md5Resp = Resp.ok bodyMd5)
    (hparse : parseOfficialHash bodyMd5 = some official) :
    (∀ body, w.fileResp = Resp.ok body →
        body.length = w.contentLength.getD 0 →
        md5c body ≠ official →
        (∀ c, localFile = some c → md5c c ≠ official) →
        verify_and_download_file md5c w localFile =
          { status := Status.failed,
            reason := some FailReason.checksumMismatch, fs := none,
            md5Bytes := bodyMd5.length, fileBytes := body.length }) ∧
    (∀ c, (verify_and_download_file md5c w localFile).fs = some c →
        md5c c = official) := by
  constructor
  · intro body hfile hlen hmm hloc
    rcases localFile with _ | c
    · simp [verify_and_download_file, downloadPhase, hmd5, hparse, hfile,
            hlen, hmm]
    · have hc := hloc c rfl
      simp [verify_and_download_file, downloadPhase, hmd5, hparse, hfile,
            hlen, hmm, hc]
  · intro c hfs
    rcases sync_fs_spec md5c w localFile with
        ⟨_, hnone⟩ | ⟨_, hw404, _⟩ | ⟨b, o, c2, hw, hp, _, hfs2, hm⟩
    · rw [hfs] at hnone; cases hnone
    · rw [hmd5] at hw404; cases hw404
    · rw [hmd5] at hw
      injection hw with hb
      subst hb
      rw [hparse] at hp
      injection hp with ho
      subst ho
      rw [hfs] at hfs2
      injection hfs2 with hc2
      rw [hc2]
      exact hm

/-- Witness for `fresh_checksum_mismatch_deleted`: every downloaded body
hashes to `"x"` while the official hash is `"h"`, so the fresh download is
rejected and deleted. -/
theorem fresh_checksum_mismatch_deleted_witness :
    verify_and_download_file (fun _ => "x") unchangedWorld none =
      { status := Status.failed, reason := some FailReason.checksumMismatch,
        fs := none, md5Bytes := 3, fileBytes := 1 } :=
  (fresh_checksum_mismatch_deleted (fun _ => "x") unchangedWorld none
      "k=h" "h" rfl (by decide)).1
    [7] rfl (by decide) (by decide) (fun c hc => Option.noConfusion hc)

/-- C8 counterexample: the server declares no content length
(`contentLength = none`), the download completes with one byte written, yet
the worker fails at the size-mismatch raise site — refuting the claim that
`Failed(SizeMismatch)` happens only when a declared content length is
provided (the script treats a missing header as a declared length of 0). -/
theorem size_mismatch_without_declared_length :
    (verify_and_download_file (fun _ => "h")
        { md5Resp := Resp.ok "k=h", fileResp := Resp.ok [7],
          contentLength := none, interruptedBytes := 0 } none).reason =
      some FailReason.sizeMismatch ∧
    ({ md5Resp := Resp.ok "k=h", fileResp := Resp.ok [7],
       contentLength := none, interruptedBytes := 0 } : RemoteFile).contentLength
      = none := by
  decide

/-- C8 (amended): the outcome is `failed` at the size-mismatch raise site,
with no file left on disk, exactly when the sync reaches the download step
(official checksum obtained, no matching local file), the body is fully
received, and the bytes written differ from the declared content length
taken as 0 when the header is absent. -/
theorem size_mismatch_characterization (md5c : Content → String)
    (w : RemoteFile) (localFile : Option Content) :
    ((verify_and_download_file md5c w localFile).reason =
        some FailReason.sizeMismatch ∧
     (verify_and_download_file md5c w localFile).fs = none) ↔
    (∃ bodyMd5 official body,
      w.md5Resp = Resp.ok bodyMd5 ∧
      parseOfficialHash bodyMd5 = some official ∧
      (∀ c, localFile = some c → md5c c ≠ official) ∧
      w.fileResp = Resp.ok body ∧
      body.length ≠ w.contentLength.getD 0) := by
  constructor
  · rintro ⟨hr, -⟩
    rcases hw : w.md5Resp with bodyMd5 | code | _
    case httpError =>
      by_cases h4 : code = 404 <;>
        simp [verify_and_download_file, hw, h4] at hr
    case exn => simp [verify_and_download_file, hw] at hr
    case ok =>
      rcases hp : parseOfficialHash bodyMd5 with _ | official
      · simp [verify_and_download_file, hw, hp] at hr
      · rcases localFile with _ | c
        · rcases hf : w.fileResp with body | code2 | _
          · by_cases hlen : body.length ≠ w.contentLength.getD 0
            · exact ⟨bodyMd5, official, body, rfl, hp,
                fun c hc => Option.noConfusion hc, rfl, hlen⟩
            · by_cases hm : md5c body = official <;>
                simp [verify_and_download_file, downloadPhase, hw, hp, hf,
                      hlen, hm] at hr
          · by_cases h4 : code2 = 404 <;>
              simp [verify_and_download_file, downloadPhase, hw, hp, hf,
                    h4] at hr
          · simp [verify_and_download_file, downloadPhase, hw, hp, hf] at hr
        · by_cases hmc : md5c c = official
          · simp [verify_and_download_file, hw, hp, hmc] at hr
          · rcases hf : w.fileResp with body | code2 | _
            · by_cases hlen : body.length ≠ w.contentLength.getD 0
              · refine ⟨bodyMd5, official, body, rfl, hp, ?_, rfl, hlen⟩
                intro c2 hc2
                injection hc2 with hcc
                rw [hcc] at hmc
                exact hmc
              · by_cases hm : md5c body = official <;>
                  simp [verify_and_download_file, downloadPhase, hw, hp,
                        hmc, hf, hlen, hm] at hr
            · by_cases h4 : code2 = 404 <;>
                simp [verify_and_download_file, downloadPhase, hw, hp, hmc,
                      hf, h4] at hr
            · simp [verify_and_download_file, downloadPhase, hw, hp, hmc,
                    hf] at hr
  · rintro ⟨bodyMd5, official, body, hw, hp, hloc, hf, hlen⟩
    rcases localFile with _ | c
    · constructor <;>
        simp [verify_and_download_file, downloadPhase, hw, hp, hf, hlen]
    · have hc := hloc c rfl
      constructor <;>
        simp [verify_and_download_file, downloadPhase, hw, hp, hf, hlen, hc]

/-- Witness for `size_mismatch_characterization`: applying the
characterization to a world with no declared content length and a one-byte
body. -/
theorem size_mismatch_characterization_witness :
    (verify_and_download_file (fun _ => "h")
        { md5Resp := Resp.ok "k=h", fileResp := Resp.ok [7],
          contentLength := none, interruptedBytes := 0 } none).reason =
      some FailReason.sizeMismatch ∧
    (verify_and_download_file (fun _ => "h")
        { md5Resp := Resp.ok "k=h", fileResp := Resp.ok [7],
          contentLength := none, interruptedBytes := 0 } none).fs = none :=
  (size_mismatch_characterization (fun _ => "h")
      { md5Resp := Resp.ok "k=h", fileResp := Resp.ok [7],
        contentLength := none, interruptedBytes := 0 } none).mpr
    ⟨"k=h", "h", [7], rfl, by decide, fun c hc => Option.noConfusion hc, rfl,
     by decide⟩

/-- When `success` or `skipped_verified` is returned, the checksum resource
was fetched and parsed, and the file now on disk matches the official hash. -/
theorem sync_success_fs_matches (md5c : Content → String) (w : RemoteFile)
    (fs0 : Option Content)
    (h : (verify_and_download_file md5c w fs0).status = Status.success ∨
         (verify_and_download_file md5c w fs0).status = Status.skipped_verified) :
    ∃ bodyMd5 official c,
      w.md5Resp = Resp.ok bodyMd5 ∧
      parseOfficialHash bodyMd5 = some official ∧
      (verify_and_download_file md5c w fs0).fs = some c ∧
      md5c c = official := by
  rcases sync_fs_spec md5c w fs0 with
      ⟨hs, _⟩ | ⟨hs, _, _⟩ | ⟨b, o, c, hw, hp, _, hfs, hm⟩
  · rcases h with h | h <;> rcases hs with hs | hs <;> rw [h] at hs <;> cases hs
  · rcases h with h | h <;> rw [h] at hs <;> cases hs
  · exact ⟨b, o, c, hw, hp, hfs, hm⟩

/-- A local file matching the official checksum is verified in place:
`skipped_verified`, file kept, zero file bytes transferred. -/
theorem sync_verified_of_matching (md5c : Content → String) (w : RemoteFile)
    (c : Content) (bodyMd5 official : String)
    (hmd5 : w.md5Resp = Resp.ok bodyMd5)
    (hparse : parseOfficialHash bodyMd5 = some official)
    (hmatch : md5c c = official) :
    verify_and_download_file md5c w (some c) =
      { status := Status.skipped_verified, reason := none, fs := some c,
        md5Bytes := bodyMd5.length, fileBytes := 0 } := by
  simp [verify_and_download_file, hmd5, hparse, hmatch]

/-- C5 counterexample: with the remote content unchanged, the second call
does return the Verified status, but its total network transfer is the
checksum-resource fetch, which is not zero bytes — refuting "performs zero
bytes of network transfer". -/
theorem second_sync_transfers_nonzero_bytes :
    (verify_and_download_file (fun _ => "h") unchangedWorld
        (verify_and_download_file (fun _ => "h") unchangedWorld none).fs).status =
      Status.skipped_verified ∧
    networkBytes
      (verify_and_download_file (fun _ => "h") unchangedWorld
        (verify_and_download_file (fun _ => "h") unchangedWorld none).fs) ≠ 0 := by
  decide

/-- C5 (amended): for a descriptor whose remote content is unchanged between
two sync calls and whose first call ended Verified or Downloaded, the second
call returns `skipped_verified` (Verified) and transfers zero bytes of the
file itself; the checksum resource is still fetched each call. -/
theorem second_sync_verified_no_file_bytes (md5c : Content → String)
    (w : RemoteFile) (fs0 : Option Content)
    (h : (verify_and_download_file md5c w fs0).status = Status.success ∨
         (verify_and_download_file md5c w fs0).status = Status.skipped_verified) :
    (verify_and_download_file md5c w
        (verify_and_download_file md5c w fs0).fs).status =
      Status.skipped_verified ∧
    (verify_and_download_file md5c w
        (verify_and_download_file md5c w fs0).fs).fileBytes = 0 := by
  obtain ⟨bodyMd5, official, c, hmd5, hp, hfs, hm⟩ :=
    sync_success_fs_matches md5c w fs0 h
  rw [hfs, sync_verified_of_matching md5c w c bodyMd5 official hmd5 hp hm]
  exact ⟨rfl, rfl⟩

/-- Witness for `second_sync_verified_no_file_bytes` on the concrete
unchanged world: first call downloads, second call verifies in place. -/
theorem second_sync_verified_no_file_bytes_witness :
    (verify_and_download_file (fun _ => "h") unchangedWorld
        (verify_and_download_file (fun _ => "h") unchangedWorld none).fs).status =
      Status.skipped_verified ∧
    (verify_and_download_file (fun _ => "h") unchangedWorld
        (verify_and_download_file (fun _ => "h") unchangedWorld none).fs).fileBytes =
      0 :=
  second_sync_verified_no_file_bytes (fun _ => "h") unchangedWorld none
    (by decide)

/-! ### Coordinator lemmas -/

/-- One round preserves the partition invariant: the round's work set is
split by outcome into the next work set (`failed`), the confirmed-absent
additions (`failed_404`) and the done additions (everything else), while
names outside the work set keep their previous classification. -/
theorem runRound_partition {inv : List String} {s : SessionState}
    {f : String → Status} (h : sessionPartition inv s) :
    sessionPartition inv (runRound f s) := by
  intro name
  obtain ⟨hiff, hpa, hpd, had⟩ := h name
  rcases hf : f name with _ | _ | _ | _ <;>
    simp only [runRound, List.mem_filter, List.mem_append,
      decide_eq_true_eq, hf] <;>
    simp <;> tauto

/-- The partition invariant holds after any number of rounds, given it held
at the start. -/
theorem runRounds_partition (outcome : Nat → String → Status) (fuel : Nat)
    {inv : List String} {s : SessionState} (h : sessionPartition inv s) :
    sessionPartition inv (runRounds outcome fuel s) := by
  induction fuel generalizing s with
  | zero => exact h
  | succ k ih =>
      rw [runRounds]
      split
      · exact h
      · exact ih (runRound_partition h)

/-- Executed rounds are bounded by the fuel (`max_retries`). -/
theorem runRounds_roundsCompleted_le (outcome : Nat → String → Status)
    (fuel : Nat) (s : SessionState) :
    (runRounds outcome fuel s).roundsCompleted ≤ s.roundsCompleted + fuel := by
  induction fuel generalizing s with
  | zero => simp [runRounds]
  | succ k ih =>
      rw [runRounds]
      split
      · omega
      · have h1 := ih (runRound (outcome s.roundsCompleted) s)
        have h2 : (runRound (outcome s.roundsCompleted) s).roundsCompleted =
            s.roundsCompleted + 1 := rfl
        omega

/-- The number of logged work sets grows by at most the fuel. -/
theorem runRounds_workLog_le (outcome : Nat → String → Status)
    (fuel : Nat) (s : SessionState) :
    (runRounds outcome fuel s).workLog.length ≤ s.workLog.length + fuel := by
  induction fuel generalizing s with
  | zero => simp [runRounds]
  | succ k ih =>
      rw [runRounds]
      split
      · omega
      · have h1 := ih (runRound (outcome s.roundsCompleted) s)
        have h2 : (runRound (outcome s.roundsCompleted) s).workLog.length =
            s.workLog.length + 1 := by
          simp [runRound]
        omega

/-- A name whose outcome is `failed` in every round stays in the work set. -/
theorem always_failed_stays_pending (outcome : Nat → String → Status)
    (name : String) (hfail : ∀ r, outcome r name = Status.failed)
    (fuel : Nat) (s : SessionState)
    (hmem : name ∈ s.files_to_process) :
    name ∈ (runRounds outcome fuel s).files_to_process := by
  induction fuel generalizing s with
  | zero => exact hmem
  | succ k ih =>
      rw [runRounds]
      split
      · exact hmem
      · apply ih
        simp only [runRound, List.mem_filter, decide_eq_true_eq, hfail]
        exact ⟨hmem, trivial⟩

/-- A name not in the work set never re-enters it, and a name confirmed
absent stays confirmed absent, across any number of further rounds. -/
theorem absent_sticky_runRounds (outcome : Nat → String → Status)
    (name : String) (k : Nat) (s : SessionState)
    (hp : name ∉ s.files_to_process) (ha : name ∈ s.non_existent_files) :
    name ∉ (runRounds outcome k s).files_to_process ∧
    name ∈ (runRounds outcome k s).non_existent_files := by
  induction k generalizing s with
  | zero => exact ⟨hp, ha⟩
  | succ j ih =>
      rw [runRounds]
      split
      · exact ⟨hp, ha⟩
      · apply ih
        · simp only [runRound, List.mem_filter, decide_eq_true_eq]
          intro hc
          exact hp hc.1
        · simp only [runRound, List.mem_append]
          exact Or.inl ha

/-- A 404 outcome moves the name out of the work set into the
confirmed-absent set in that very round. -/
theorem runRound_404_moves {f : String → Status} {s : SessionState}
    {name : String} (hmem : name ∈ s.files_to_process)
    (h404 : f name = Status.failed_404) :
    name ∉ (runRound f s).files_to_process ∧
    name ∈ (runRound f s).non_existent_files := by
  constructor
  · simp only [runRound, List.mem_filter, decide_eq_true_eq, h404]
    intro hc
    cases hc.2
  · simp only [runRound, List.mem_append, List.mem_filter,
      decide_eq_true_eq, h404]
    exact Or.inr ⟨hmem, trivial⟩

/-- A confirmed-absent name is excluded from `expected_files`, hence never
reported missing, whatever the directory listing contains. -/
theorem absent_not_missing {inv listing : List String} {s : SessionState}
    {name : String} (ha : name ∈ s.non_existent_files) :
    name ∉ missing_files (expected_files inv s) listing := by
  simp only [missing_files, expected_files, List.mem_filter,
    decide_eq_true_eq]
  intro hc
  exact hc.1.2 ha

/-! ### Coordinator claim theorems -/

/-- C1: at every round boundary (state after any number of executed rounds,
starting from the full inventory `pubmed{yy}n0001 .. pubmed{yy}n{count}`),
every inventory name is in exactly one of the pending work set, the
confirmed-absent set, and the set of names whose last outcome was
Verified/Downloaded, and the union of the three is the full inventory. -/
theorem inventory_partition_at_round_boundaries
    (outcome : Nat → String → Status) (yearTag : String) (n fuel : Nat) :
    sessionPartition (inventoryNames yearTag n)
      (runRounds outcome fuel (initState (inventoryNames yearTag n))) := by
  apply runRounds_partition
  intro name
  simp [initState]

/-- C2: with `max_retries = N ≥ 1`, a file that fails retryably on every
attempt is attempted at most `N` times (it appears in at most `N` logged
work sets), it ends up in the `stillFailing` residue (`files_to_process`
after the loop), and the round loop runs at most `N` rounds — the loop is
structurally bounded, so it always terminates. -/
theorem always_failing_file_bounded_retries (N : Nat) (hN : 1 ≤ N)
    (outcome : Nat → String → Status) (yearTag : String) (n : Nat)
    (name : String) (hmem : name ∈ inventoryNames yearTag n)
    (hfail : ∀ r, outcome r name = Status.failed) :
    attemptCount name
        (runRounds outcome N (initState (inventoryNames yearTag n))) ≤ N ∧
    name ∈ (runRounds outcome N
        (initState (inventoryNames yearTag n))).files_to_process ∧
    (runRounds outcome N
        (initState (inventoryNames yearTag n))).roundsCompleted ≤ N := by
  refine ⟨?_, ?_, ?_⟩
  · have h1 := runRounds_workLog_le outcome N (initState (inventoryNames yearTag n))
    have h2 := List.length_filter_le (fun l => decide (name ∈ l))
      (runRounds outcome N (initState (inventoryNames yearTag n))).workLog
    have h0 : (initState (inventoryNames yearTag n)).workLog.length = 0 := rfl
    unfold attemptCount
    omega
  · exact always_failed_stays_pending outcome name hfail N _ hmem
  · have h1 := runRounds_roundsCompleted_le outcome N
      (initState (inventoryNames yearTag n))
    simpa [initState] using h1

/-- Witness for `always_failing_file_bounded_retries` with one file, one
round, an always-failing oracle. -/
theorem always_failing_file_bounded_retries_witness :
    attemptCount "pubmed25n0001.xml.gz"
        (runRounds (fun _ _ => Status.failed) 1
          (initState (inventoryNames "25" 1))) ≤ 1 ∧
    "pubmed25n0001.xml.gz" ∈ (runRounds (fun _ _ => Status.failed) 1
        (initState (inventoryNames "25" 1))).files_to_process ∧
    (runRounds (fun _ _ => Status.failed) 1
        (initState (inventoryNames "25" 1))).roundsCompleted ≤ 1 :=
  always_failing_file_bounded_retries 1 (by decide) (fun _ _ => Status.failed)
    "25" 1 "pubmed25n0001.xml.gz" (by decide) (fun _ => rfl)

/-- C4: a file whose outcome is `failed_404` in some round (state `s` at
that round boundary, work set containing the name) is absent from the work
set of every subsequent round, is in the confirmed-absent set from then on,
and never appears in the `missing` list of the final reconciliation report,
whatever the directory listing is. -/
theorem notFound_is_sticky (outcome : Nat → String → Status)
    (s : SessionState) (inv listing : List String) (name : String) (k : Nat)
    (hmem : name ∈ s.files_to_process)
    (h404 : outcome s.roundsCompleted name = Status.failed_404) :
    name ∉ (runRounds outcome k
        (runRound (outcome s.roundsCompleted) s)).files_to_process ∧
    name ∈ (runRounds outcome k
        (runRound (outcome s.roundsCompleted) s)).non_existent_files ∧
    name ∉ missing_files
        (expected_files inv
          (runRounds outcome k (runRound (outcome s.roundsCompleted) s)))
        listing := by
  obtain ⟨h1, h2⟩ := runRound_404_moves hmem h404
  obtain ⟨h3, h4⟩ := absent_sticky_runRounds outcome name k _ h1 h2
  exact ⟨h3, h4, absent_not_missing h4⟩

/-- Witness for `notFound_is_sticky`: the single inventory file 404s in the
first round; one further round runs; the file is not pending, is confirmed
absent, and is not missing even though the directory listing is empty. -/
theorem notFound_is_sticky_witness :
    "pubmed25n0001.xml.gz" ∉ (runRounds (fun _ _ => Status.failed_404) 1
        (runRound ((fun (_ : Nat) (_ : String) => Status.failed_404) 0)
          (initState (inventoryNames "25" 1)))).files_to_process ∧
    "pubmed25n0001.xml.gz" ∈ (runRounds (fun _ _ => Status.failed_404) 1
        (runRound ((fun (_ : Nat) (_ : String) => Status.failed_404) 0)
          (initState (inventoryNames "25" 1)))).non_existent_files ∧
    "pubmed25n0001.xml.gz" ∉ missing_files
        (expected_files (inventoryNames "25" 1)
          (runRounds (fun _ _ => Status.failed_404) 1
            (runRound ((fun (_ : Nat) (_ : String) => Status.failed_404) 0)
              (initState (inventoryNames "25" 1))))) [] :=
  notFound_is_sticky (fun _ _ => Status.failed_404)
    (initState (inventoryNames "25" 1)) (inventoryNames "25" 1) []
    "pubmed25n0001.xml.gz" 1 (by decide) rfl

/-- C9 counterexample: a run whose final report has non-empty `missing` and
`stillFailing` lists still makes the process exit 0 — the script prints the
error report and falls off the end of `__main__`; `sys.exit(1)` is called
only during setup.  This refutes "non-zero exit code on a non-clean
report". -/
theorem nonempty_report_still_exits_zero :
    mainExitCode cfgDemo (fun _ _ => Status.failed) [] 1 = 0 ∧
    download_all_pubmed_baseline_files cfgDemo (fun _ _ => Status.failed) [] 1 =
      Except.ok { missing := ["pubmed25n0001.xml.gz"],
                  stillFailing := ["pubmed25n0001.xml.gz"] } ∧
    (["pubmed25n0001.xml.gz"] : List String) ≠ [] :=
  ⟨by decide, rfl, by decide⟩

/-- C9 (amended): the exit code is 0 exactly when setup succeeds — the
download path is not an existing non-directory and the remote file count is
determined and positive; the content of the reconciliation report never
affects the exit code. -/
theorem exit_zero_iff_setup_ok (cfg : RunConfig)
    (outcome : Nat → String → Status) (listingAfter : List String)
    (max_retries : Nat) :
    mainExitCode cfg outcome listingAfter max_retries = 0 ↔
      (¬(cfg.dirExists ∧ ¬ cfg.dirIsDir) ∧
       ∃ n, cfg.countResult = some n ∧ 0 < n) := by
  obtain ⟨de, dd, cr, y⟩ := cfg
  unfold mainExitCode download_all_pubmed_baseline_files
  rcases cr with _ | n
  · cases de <;> cases dd <;> simp
  · rcases n with _ | m
    · cases de <;> cases dd <;> simp
    · cases de <;> cases dd <;> simp

/-- Witness for `exit_zero_iff_setup_ok`: the concrete failing run exits 0
because its setup succeeded. -/
theorem exit_zero_iff_setup_ok_witness :
    mainExitCode cfgDemo (fun _ _ => Status.failed) [] 1 = 0 :=
  (exit_zero_iff_setup_ok cfgDemo (fun _ _ => Status.failed) [] 1).mpr
    ⟨by decide, 1, rfl, by decide⟩

end PubmedSync
